import Mathlib

/-!
Verification of the Print Studio backend pricing core.

The development shallowly embeds the pricing engine and quote-creation flow
of the backend (files main.py and schemas.py). Monetary values, which the
program holds as IEEE-754 doubles, are modelled in two ways:

* an exact-rational model: prices are exact rationals and the builtin
  two-decimal rounding is modelled as round-half-to-even on the exact value
  (the rule the language documents for its rounding builtin). This model is
  used for the structural and algebraic claims.

* a double-precision model: every arithmetic operation first computes the
  exact rational result and then rounds it to the nearest rational of the
  form m * 2^e with |m| < 2^53 (ties to even), exactly the behaviour of
  binary64 round-to-nearest arithmetic for values in the normal range. The
  two-decimal rounding builtin is modelled as the correctly rounded decimal
  result (half-to-even on the exact value of the double) converted back to
  the nearest double, which is the documented behaviour of the runtime.
  This model is used for the numerical claim that pins down a concrete
  rounded value.
-/

namespace PrintShop

/-- Round a rational to the nearest integer, ties to even: the rounding rule
of the runtime rounding builtin applied to an exact value. -/
def rne (q : ℚ) : ℤ :=
  if q - ⌊q⌋ < 1/2 then ⌊q⌋
  else if 1/2 < q - ⌊q⌋ then ⌊q⌋ + 1
  else if ⌊q⌋ % 2 = 0 then ⌊q⌋ else ⌊q⌋ + 1

/-- Rounding to two decimal places on exact rationals, half to even
(exact-rational model of rounding a value to 2 digits). -/
def round2 (q : ℚ) : ℚ := (rne (100 * q) : ℚ) / 100

/-- Service record, from schemas.py (class Service). -/
structure Service where
  key : String
  name : String
  description : Option String
  base_price : ℚ
  categories : List String
  color_price_per_color : ℚ
  print_area_multiplier : ℚ
  minimum_quantity : ℤ
deriving DecidableEq, Repr

/-- Field constraints declared on Service in schemas.py: base_price ≥ 0,
color_price_per_color ≥ 0, print_area_multiplier ≥ 0.1, minimum_quantity ≥ 1. -/
def Service.valid (s : Service) : Prop :=
  0 ≤ s.base_price ∧ 0 ≤ s.color_price_per_color ∧
    (1/10 : ℚ) ≤ s.print_area_multiplier ∧ 1 ≤ s.minimum_quantity

instance (s : Service) : Decidable s.valid := by
  unfold Service.valid; infer_instance

/-- Body of a compute-price request, from main.py (class PriceRequest).
No bound is declared on colors or quantity there. -/
structure PriceRequest where
  service_key : String
  quantity : ℤ
  colors : ℤ
  print_area : String
deriving DecidableEq, Repr

/-- Response of the compute-price operation, from main.py (class
PriceResponse); the breakdown dict is flattened into named fields. -/
structure PriceResponse where
  unit_price : ℚ
  total_price : ℚ
  breakdown_base : ℚ
  breakdown_colors : ℤ
  breakdown_color_add_per_unit : ℚ
  breakdown_area_multiplier : ℚ
  breakdown_volume_discounts : Bool
deriving DecidableEq, Repr

/-- Errors raised by the pricing engine: HTTP 404 when the service key is
unknown, HTTP 400 when the quantity is below the minimum of the service. -/
inductive PriceError where
  | serviceNotFound
  | minimumQuantity (minimum : ℤ)
deriving DecidableEq, Repr

/-- HTTP status carried by each pricing error in main.py. -/
def PriceError.status : PriceError → ℕ
  | .serviceNotFound => 404
  | .minimumQuantity _ => 400

/-- Catalog lookup: first document whose key field matches, as the document
store find_one does (main.py line 121). -/
def find_one (catalog : List Service) (key : String) : Option Service :=
  catalog.find? (fun s => s.key = key)

/-- Area multiplier selection (main.py lines 126-127): the dict maps
small to 0.9, medium to 1.0, large to the multiplier of the service, and
the lookup falls back to 1.0 for any other value. -/
def areaMultiplier (s : Service) (area : String) : ℚ :=
  if area = "small" then 9/10
  else if area = "medium" then 1
  else if area = "large" then s.print_area_multiplier
  else 1

/-- Color add-on (main.py line 130): max(0, colors - 1) * color_price_per_color. -/
def colorAdd (s : Service) (colors : ℤ) : ℚ :=
  ((max 0 (colors - 1) : ℤ) : ℚ) * s.color_price_per_color

/-- Unit price before the volume discount (main.py lines 129-131). -/
def preDiscountUnit (s : Service) (req : PriceRequest) : ℚ :=
  round2 ((s.base_price + colorAdd s req.colors) * areaMultiplier s req.print_area)

/-- Volume discount step function (main.py lines 134-139): thresholds are
checked in descending order and exactly one branch multiplies. -/
def applyVolumeDiscount (quantity : ℤ) (u : ℚ) : ℚ :=
  if 100 ≤ quantity then u * (3/4)
  else if 50 ≤ quantity then u * (41/50)
  else if 20 ≤ quantity then u * (9/10)
  else u

/-- The compute-price operation (main.py lines 116-157, calculate_price),
with the document store given as the list of service documents. -/
def calculate_price (catalog : List Service) (req : PriceRequest) :
    Except PriceError PriceResponse :=
  match find_one catalog req.service_key with
  | none => .error .serviceNotFound
  | some service =>
    let area_mult := areaMultiplier service req.print_area
    let unit_price := round2 (applyVolumeDiscount req.quantity (preDiscountUnit service req))
    if req.quantity < service.minimum_quantity then
      .error (.minimumQuantity service.minimum_quantity)
    else
      .ok {
        unit_price := unit_price
        total_price := round2 (unit_price * (req.quantity : ℚ))
        breakdown_base := service.base_price
        breakdown_colors := req.colors
        breakdown_color_add_per_unit := service.color_price_per_color
        breakdown_area_multiplier := area_mult
        breakdown_volume_discounts := true }

/-- Quote request document, from schemas.py (class QuoteRequest). -/
structure QuoteRequest where
  customer_name : String
  customer_email : String
  service_key : String
  quantity : ℤ
  colors : ℤ
  print_area : String
  notes : Option String
  estimated_total : Option ℚ
deriving DecidableEq, Repr

/-- The pricing parameters that create_quote forwards (main.py lines 165-170). -/
def toPriceRequest (q : QuoteRequest) : PriceRequest :=
  { service_key := q.service_key
    quantity := q.quantity
    colors := q.colors
    print_area := q.print_area }

/-- Quote creation (main.py lines 159-174, create_quote). The quote store is
the list of persisted quote documents; insertion returns the new store and
the generated identifier, modelled as the previous document count. An error
from the pricing call aborts before anything is written, so the store is
returned unchanged in that case. -/
def create_quote (catalog : List Service) (store : List QuoteRequest)
    (q : QuoteRequest) : Except PriceError (ℕ × ℚ) × List QuoteRequest :=
  match calculate_price catalog (toPriceRequest q) with
  | .error e => (.error e, store)
  | .ok price =>
    let q2 := { q with estimated_total := some price.total_price }
    (.ok (store.length, price.total_price), store ++ [q2])

/-- Errors visible at the quote-creation endpoint: a validation error when
the request body violates the field constraints of schemas.py, otherwise
whatever the pricing engine raises. -/
inductive QuoteError where
  | validation
  | pricing (e : PriceError)
deriving DecidableEq, Repr

/-- Field constraints of QuoteRequest in schemas.py lines 30-38, checked by
the model layer before the handler runs: name at least 2 characters, email
syntactically valid (the email grammar lives in an external validation
library, abstracted here as the predicate emailOk), quantity in [1, 100000],
colors in [1, 10], print_area one of small, medium, large, and a supplied
estimated_total, if any, nonnegative. -/
def QuoteRequest.wellFormed (emailOk : String → Bool) (q : QuoteRequest) : Bool :=
  decide (2 ≤ q.customer_name.length) && emailOk q.customer_email &&
  decide (1 ≤ q.quantity) && decide (q.quantity ≤ 100000) &&
  decide (1 ≤ q.colors) && decide (q.colors ≤ 10) &&
  (decide (q.print_area = "small") || decide (q.print_area = "medium") ||
    decide (q.print_area = "large")) &&
  (match q.estimated_total with | none => true | some v => decide (0 ≤ v))

/-- The quote-creation endpoint as seen by a caller: the framework rejects a
body violating the declared constraints before the handler runs (nothing is
read or written then), otherwise the handler create_quote executes. -/
def post_quotes (emailOk : String → Bool) (catalog : List Service)
    (store : List QuoteRequest) (q : QuoteRequest) :
    Except QuoteError (ℕ × ℚ) × List QuoteRequest :=
  if q.wellFormed emailOk then
    match create_quote catalog store q with
    | (.error e, st) => (.error (.pricing e), st)
    | (.ok r, st) => (.ok r, st)
  else
    (.error .validation, store)

/-!
Double-precision model. A binary64 value is represented by the rational it
denotes. Rounding a rational to the nearest double keeps 53 significant
bits, ties to even; exponents far beyond the binary64 range are supported
(no overflow or subnormal handling is needed for the catalog prices in
scope, which all sit comfortably inside the normal range).
-/

/-- Exponent search loop: doubles or halves q until it lands in [1, 2),
counting the scaling steps. The fuel bounds the recursion depth and covers
any exponent up to 4400, far past the binary64 range. -/
def findExpGo : ℕ → ℚ → ℤ → ℤ
  | 0, _, acc => acc
  | fuel+1, q, acc =>
    if q < 1 then findExpGo fuel (2*q) (acc - 1)
    else if 2 ≤ q then findExpGo fuel (q/2) (acc + 1)
    else acc

/-- Floor of the base-2 logarithm of a positive rational. -/
def findExp (q : ℚ) : ℤ := findExpGo 4400 q 0

/-- Round a rational to the nearest binary64 value (53 significant bits,
ties to even), returned as the rational it denotes. -/
def dbl (q : ℚ) : ℚ :=
  if q = 0 then 0
  else
    let k : ℤ := findExp |q| - 52
    if 0 ≤ k then
      (rne (q / ((2 ^ k.toNat : ℕ) : ℚ)) : ℚ) * ((2 ^ k.toNat : ℕ) : ℚ)
    else
      (rne (q * ((2 ^ (-k).toNat : ℕ) : ℚ)) : ℚ) / ((2 ^ (-k).toNat : ℕ) : ℚ)

/-- The runtime rounding builtin on a double: the exact value is rounded to
two decimal places (half to even), and the resulting decimal is converted to
the nearest double. -/
def pyRound2 (x : ℚ) : ℚ := dbl ((rne (100 * x) : ℚ) / 100)

/-- Double-precision addition: exact sum, rounded to the nearest double. -/
def fadd (a b : ℚ) : ℚ := dbl (a + b)

/-- Double-precision multiplication: exact product, rounded to the nearest
double. -/
def fmul (a b : ℚ) : ℚ := dbl (a * b)

/-- Area multiplier selection in the double-precision model (main.py lines
126-127); the dict literals 0.9 and 1.0 denote their double values. -/
def areaMultiplierFP (s : Service) (area : String) : ℚ :=
  if area = "small" then dbl (9/10)
  else if area = "medium" then dbl 1
  else if area = "large" then s.print_area_multiplier
  else dbl 1

/-- Color add-on in the double-precision model (main.py line 130): the
integer max(0, colors - 1) is converted to a double and multiplied. -/
def colorAddFP (s : Service) (colors : ℤ) : ℚ :=
  fmul (dbl ((max 0 (colors - 1) : ℤ) : ℚ)) s.color_price_per_color

/-- Unit price before the volume discount in the double-precision model
(main.py lines 129-131). -/
def preDiscountUnitFP (s : Service) (req : PriceRequest) : ℚ :=
  pyRound2 (fmul (fadd s.base_price (colorAddFP s req.colors))
    (areaMultiplierFP s req.print_area))

/-- Volume discount step function in the double-precision model (main.py
lines 134-139); 0.75, 0.82 and 0.9 denote their double values. -/
def applyVolumeDiscountFP (quantity : ℤ) (u : ℚ) : ℚ :=
  if 100 ≤ quantity then fmul u (dbl (3/4))
  else if 50 ≤ quantity then fmul u (dbl (41/50))
  else if 20 ≤ quantity then fmul u (dbl (9/10))
  else u

/-- The compute-price operation in the double-precision model (main.py
lines 116-157, calculate_price). -/
def calculate_price_fp (catalog : List Service) (req : PriceRequest) :
    Except PriceError PriceResponse :=
  match find_one catalog req.service_key with
  | none => .error .serviceNotFound
  | some service =>
    let area_mult := areaMultiplierFP service req.print_area
    let unit_price := pyRound2 (applyVolumeDiscountFP req.quantity (preDiscountUnitFP service req))
    if req.quantity < service.minimum_quantity then
      .error (.minimumQuantity service.minimum_quantity)
    else
      .ok {
        unit_price := unit_price
        total_price := pyRound2 (fmul unit_price (dbl (req.quantity : ℚ)))
        breakdown_base := service.base_price
        breakdown_colors := req.colors
        breakdown_color_add_per_unit := service.color_price_per_color
        breakdown_area_multiplier := area_mult
        breakdown_volume_discounts := true }

/-- The seeded t-shirt service (main.py lines 62-71). -/
def tshirtService : Service where
  key := "tshirt"
  name := "T-Shirt Printing"
  description := some "DTG and screen printing for tees"
  base_price := 6
  categories := ["apparel", "tshirt"]
  color_price_per_color := 35/100
  print_area_multiplier := 1
  minimum_quantity := 1

/-- The seeded t-shirt service in the double-precision model: each decimal
literal of main.py lines 62-71 denotes the nearest double. -/
def tshirtServiceFP : Service where
  key := "tshirt"
  name := "T-Shirt Printing"
  description := some "DTG and screen printing for tees"
  base_price := dbl 6
  categories := ["apparel", "tshirt"]
  color_price_per_color := dbl (35/100)
  print_area_multiplier := dbl 1
  minimum_quantity := 1

/-- A well-formed sample quote request, used to instantiate the theorems. -/
def sampleQuote : QuoteRequest where
  customer_name := "Ada"
  customer_email := "ada@example.com"
  service_key := "tshirt"
  quantity := 100
  colors := 1
  print_area := "medium"
  notes := none
  estimated_total := none

/-! Helper lemmas about the rounding functions. -/

lemma floor_le_rne (q : ℚ) : ⌊q⌋ ≤ rne q := by
  unfold rne
  split_ifs <;> omega

lemma rne_le_floor_add_one (q : ℚ) : rne q ≤ ⌊q⌋ + 1 := by
  unfold rne
  split_ifs <;> omega

lemma rne_mono {q r : ℚ} (h : q ≤ r) : rne q ≤ rne r := by
  rcases lt_or_le ⌊q⌋ ⌊r⌋ with hf | hf
  · calc rne q ≤ ⌊q⌋ + 1 := rne_le_floor_add_one q
      _ ≤ ⌊r⌋ := by omega
      _ ≤ rne r := floor_le_rne r
  · have hfe : ⌊q⌋ = ⌊r⌋ := le_antisymm (Int.floor_le_floor h) hf
    unfold rne
    rw [hfe]
    split_ifs <;> first | omega | linarith

lemma round2_mono {q r : ℚ} (h : q ≤ r) : round2 q ≤ round2 r := by
  have h1 := rne_mono (mul_le_mul_of_nonneg_left h (by norm_num : (0:ℚ) ≤ 100))
  have h2 : ((rne (100*q) : ℤ) : ℚ) ≤ ((rne (100*r) : ℤ) : ℚ) := by exact_mod_cast h1
  unfold round2
  linarith

lemma findExpGo_spec (fuel : ℕ) (q : ℚ) (acc L : ℤ)
    (h1 : (2:ℚ)^L ≤ q) (h2 : q < 2^(L+1)) (hfuel : L.natAbs < fuel) :
    findExpGo fuel q acc = acc + L := by
  induction fuel generalizing q acc L with
  | zero => omega
  | succ f ih =>
    have hq0 : 0 < q := lt_of_lt_of_le (zpow_pos (by norm_num) L) h1
    by_cases hlt : q < 1
    · have hL : L < 0 := by
        by_contra hc
        push_neg at hc
        have : (1:ℚ) ≤ (2:ℚ)^L := one_le_zpow₀ (by norm_num) hc
        linarith
      have e1 : (2:ℚ)^(L+1) ≤ 2*q := by
        rw [zpow_add_one₀ (by norm_num : (2:ℚ) ≠ 0)]
        linarith
      have e2 : 2*q < 2^(L+1+1) := by
        rw [zpow_add_one₀ (by norm_num : (2:ℚ) ≠ 0) (L+1)]
        linarith
      have := ih (2*q) (acc - 1) (L+1) e1 e2 (by omega)
      simp only [findExpGo, hlt, if_pos]
      omega
    · push_neg at hlt
      by_cases hge : 2 ≤ q
      · have hL : 0 < L := by
          by_contra hc
          push_neg at hc
          have : (2:ℚ)^(L+1) ≤ 2^(1:ℤ) := by
            apply zpow_le_zpow_right₀ (by norm_num)
            omega
          simp at this
          linarith
        have e1 : (2:ℚ)^(L-1) ≤ q/2 := by
          rw [zpow_sub_one₀ (by norm_num : (2:ℚ) ≠ 0)]
          linarith
        have e2 : q/2 < 2^(L-1+1) := by
          rw [sub_add_cancel]
          have : (2:ℚ)^L = 2^(L+1) / 2 := by
            rw [zpow_add_one₀ (by norm_num : (2:ℚ) ≠ 0)]
            ring
          rw [this]
          linarith
        have := ih (q/2) (acc + 1) (L-1) e1 e2 (by omega)
        simp only [findExpGo, hge, if_pos]
        rw [if_neg (by linarith)]
        omega
      · push_neg at hge
        have hL : L = 0 := by
          by_contra hc
          rcases lt_or_gt_of_ne hc with hneg | hpos
          · have : (2:ℚ)^(L+1) ≤ 2^(0:ℤ) := zpow_le_zpow_right₀ (by norm_num) (by omega)
            simp at this
            linarith
          · have : (2:ℚ)^(1:ℤ) ≤ 2^L := zpow_le_zpow_right₀ (by norm_num) (by omega)
            simp at this
            linarith
        simp only [findExpGo]
        rw [if_neg (by linarith), if_neg (by linarith)]
        omega

lemma dbl_eq_of (q : ℚ) (L : ℤ) (n : ℕ) (hq : 0 < q)
    (h1 : (2:ℚ)^L ≤ q) (h2 : q < 2^(L+1)) (hL2 : -4300 ≤ L)
    (hn : (n:ℤ) = 52 - L) (hpos : 0 < n) :
    dbl q = (rne (q * ((2 ^ n : ℕ) : ℚ)) : ℚ) / ((2 ^ n : ℕ) : ℚ) := by
  have habs : |q| = q := abs_of_pos hq
  have hfe : findExp |q| = L := by
    rw [habs]
    simpa [findExp] using findExpGo_spec 4400 q 0 L h1 h2 (by omega)
  unfold dbl
  rw [if_neg (ne_of_gt hq)]
  simp only [hfe]
  rw [if_neg (by omega : ¬ (0:ℤ) ≤ L - 52)]
  rw [show (-(L - 52)).toNat = n by omega]

lemma find_one_tshirt : find_one [tshirtService] "tshirt" = some tshirtService := rfl

lemma calc_price_tshirt_100_1 :
    calculate_price [tshirtService] ⟨"tshirt", 100, 1, "medium"⟩ =
      .ok ⟨9/2, 450, 6, 1, 35/100, 1, true⟩ := by
  have hpre : preDiscountUnit tshirtService ⟨"tshirt", 100, 1, "medium"⟩ = 6 := by
    unfold preDiscountUnit colorAdd
    rw [show areaMultiplier tshirtService
      (⟨"tshirt", 100, 1, "medium"⟩ : PriceRequest).print_area = 1 from rfl]
    norm_num [round2, rne, tshirtService]
  unfold calculate_price
  rw [show (⟨"tshirt", 100, 1, "medium"⟩ : PriceRequest).service_key = "tshirt" from rfl,
    find_one_tshirt]
  dsimp only
  rw [if_neg (by norm_num [tshirtService] :
    ¬ (⟨"tshirt", 100, 1, "medium"⟩ : PriceRequest).quantity < tshirtService.minimum_quantity)]
  rw [hpre, show areaMultiplier tshirtService "medium" = 1 from rfl]
  norm_num [applyVolumeDiscount, round2, rne, tshirtService]

/-! The claims. -/

/-- C1: for every service found in the catalog and every compute-price
request, the pre-discount unit price is round((base_price +
max(0, colors - 1) * color_price_per_color) * area_multiplier, 2), where
the area multiplier is 0.9 for print_area small, 1.0 for medium, the
print_area_multiplier of the service for large, and 1.0 for any other
value (a defensive default, not an error). -/
theorem claim_C1 (catalog : List Service) (req : PriceRequest) (s : Service)
    (h : find_one catalog req.service_key = some s) :
    preDiscountUnit s req =
      round2 ((s.base_price + ((max 0 (req.colors - 1) : ℤ) : ℚ) * s.color_price_per_color) *
        (if req.print_area = "small" then 9/10
         else if req.print_area = "medium" then 1
         else if req.print_area = "large" then s.print_area_multiplier
         else 1)) := rfl

theorem claim_C1_witness :
    find_one [tshirtService] "tshirt" = some tshirtService ∧
    preDiscountUnit tshirtService ⟨"tshirt", 10, 3, "medium"⟩ = round2 (67/10) := by
  refine ⟨find_one_tshirt, ?_⟩
  rw [claim_C1 [tshirtService] ⟨"tshirt", 10, 3, "medium"⟩ tshirtService find_one_tshirt]
  rw [if_neg (by decide : ¬ ("medium" : String) = "small"),
    if_pos (rfl : ("medium" : String) = "medium")]
  norm_num [tshirtService]

/-- C2: the volume discount is a non-cumulative step function of quantity in
which exactly one branch applies, checked in descending threshold order
(quantity at least 100 multiplies the already rounded unit price by 0.75,
else at least 50 by 0.82, else at least 20 by 0.90, else no discount), and
the unit price is rounded to two decimals a second time afterwards; the two
rounding points are independent, not collapsed into one. -/
theorem claim_C2 :
    (∀ (catalog : List Service) (req : PriceRequest) (s : Service) (resp : PriceResponse),
      find_one catalog req.service_key = some s →
      calculate_price catalog req = .ok resp →
      resp.unit_price = round2 (applyVolumeDiscount req.quantity (preDiscountUnit s req))) ∧
    (∀ (q : ℤ) (u : ℚ),
      (100 ≤ q → applyVolumeDiscount q u = u * (3/4)) ∧
      (q < 100 → 50 ≤ q → applyVolumeDiscount q u = u * (41/50)) ∧
      (q < 50 → 20 ≤ q → applyVolumeDiscount q u = u * (9/10)) ∧
      (q < 20 → applyVolumeDiscount q u = u)) ∧
    round2 (applyVolumeDiscount 100 (round2 (6/1000))) ≠
      round2 (applyVolumeDiscount 100 (6/1000)) := by
  refine ⟨?_, ?_, ?_⟩
  · intro catalog req s resp hf hc
    unfold calculate_price at hc
    rw [hf] at hc
    dsimp only at hc
    by_cases hq : req.quantity < s.minimum_quantity
    · rw [if_pos hq] at hc
      cases hc
    · rw [if_neg hq] at hc
      cases hc
      rfl
  · intro q u
    refine ⟨fun h => ?_, fun h1 h2 => ?_, fun h1 h2 => ?_, fun h => ?_⟩ <;>
      unfold applyVolumeDiscount
    · rw [if_pos h]
    · rw [if_neg (by omega), if_pos h2]
    · rw [if_neg (by omega), if_neg (by omega), if_pos h2]
    · rw [if_neg (by omega), if_neg (by omega), if_neg (by omega)]
  · norm_num [applyVolumeDiscount, round2, rne]

theorem claim_C2_witness :
    find_one [tshirtService] "tshirt" = some tshirtService ∧
    calculate_price [tshirtService] ⟨"tshirt", 100, 1, "medium"⟩ =
      .ok ⟨9/2, 450, 6, 1, 35/100, 1, true⟩ ∧
    (9/2 : ℚ) =
      round2 (applyVolumeDiscount 100 (preDiscountUnit tshirtService ⟨"tshirt", 100, 1, "medium"⟩)) ∧
    (100:ℤ) ≤ 100 ∧ applyVolumeDiscount 100 (6:ℚ) = 6 * (3/4) := by
  refine ⟨find_one_tshirt, calc_price_tshirt_100_1, ?_, by norm_num,
    (claim_C2.2.1 100 6).1 (by norm_num)⟩
  exact claim_C2.1 [tshirtService] ⟨"tshirt", 100, 1, "medium"⟩ tshirtService
    ⟨9/2, 450, 6, 1, 35/100, 1, true⟩ find_one_tshirt calc_price_tshirt_100_1

/-- C3: whenever the compute-price operation returns a result, the returned
total_price is round(unit_price * quantity, 2) where unit_price is the
returned, post-discount and post-rounding, unit price. -/
theorem claim_C3 (catalog : List Service) (req : PriceRequest) (resp : PriceResponse)
    (h : calculate_price catalog req = .ok resp) :
    resp.total_price = round2 (resp.unit_price * (req.quantity : ℚ)) := by
  unfold calculate_price at h
  rcases hf : find_one catalog req.service_key with _ | s
  · rw [hf] at h
    cases h
  · rw [hf] at h
    dsimp only at h
    by_cases hq : req.quantity < s.minimum_quantity
    · rw [if_pos hq] at h
      cases h
    · rw [if_neg hq] at h
      cases h
      rfl

theorem claim_C3_witness :
    calculate_price [tshirtService] ⟨"tshirt", 100, 1, "medium"⟩ =
      .ok ⟨9/2, 450, 6, 1, 35/100, 1, true⟩ ∧
    (450 : ℚ) = round2 ((9/2) * ((100:ℤ) : ℚ)) := by
  refine ⟨calc_price_tshirt_100_1, ?_⟩
  exact claim_C3 [tshirtService] ⟨"tshirt", 100, 1, "medium"⟩
    ⟨9/2, 450, 6, 1, 35/100, 1, true⟩ calc_price_tshirt_100_1

/-- C4: the compute-price operation fails with the not-found error exactly
when the requested service key is absent from the catalog; given the service
exists, it fails with the bad-request minimum-quantity error exactly when
quantity < minimum_quantity of the service; in all other cases it returns a
price result. -/
theorem claim_C4 (catalog : List Service) (req : PriceRequest) :
    (calculate_price catalog req = .error .serviceNotFound ↔
      find_one catalog req.service_key = none) ∧
    (∀ s, find_one catalog req.service_key = some s →
      (calculate_price catalog req = .error (.minimumQuantity s.minimum_quantity) ↔
        req.quantity < s.minimum_quantity)) ∧
    (∀ s, find_one catalog req.service_key = some s →
      s.minimum_quantity ≤ req.quantity →
      ∃ resp, calculate_price catalog req = .ok resp) := by
  unfold calculate_price
  rcases hf : find_one catalog req.service_key with _ | s
  · refine ⟨by simp, ?_, ?_⟩ <;> intro s hs <;> cases hs
  · dsimp only
    refine ⟨?_, ?_, ?_⟩
    · by_cases hq : req.quantity < s.minimum_quantity
      · rw [if_pos hq]
        simp
      · rw [if_neg hq]
        simp
    · intro s' hs'
      cases hs'
      by_cases hq : req.quantity < s.minimum_quantity
      · rw [if_pos hq]
        simp [hq]
      · rw [if_neg hq]
        simp [hq]
    · intro s' hs' hmin
      cases hs'
      rw [if_neg (by omega)]
      exact ⟨_, rfl⟩

theorem claim_C4_witness :
    find_one [tshirtService] "tshirt" = some tshirtService ∧
    (calculate_price [tshirtService] ⟨"mug", 5, 1, "medium"⟩ = .error .serviceNotFound ↔
      find_one [tshirtService] "mug" = none) ∧
    (calculate_price [tshirtService] ⟨"tshirt", 0, 1, "medium"⟩ =
      .error (.minimumQuantity tshirtService.minimum_quantity) ↔
      (0:ℤ) < tshirtService.minimum_quantity) ∧
    ∃ resp, calculate_price [tshirtService] ⟨"tshirt", 100, 1, "medium"⟩ = .ok resp := by
  refine ⟨find_one_tshirt,
    (claim_C4 [tshirtService] ⟨"mug", 5, 1, "medium"⟩).1,
    (claim_C4 [tshirtService] ⟨"tshirt", 0, 1, "medium"⟩).2.1 tshirtService find_one_tshirt,
    (claim_C4 [tshirtService] ⟨"tshirt", 100, 1, "medium"⟩).2.2 tshirtService find_one_tshirt
      (by norm_num [tshirtService])⟩

/-- C5: quote creation resolves the service, computes the price, attaches
the computed total and only then persists; a pricing failure (not found or
minimum-quantity validation) propagates to the caller and nothing is
written to the store. -/
theorem claim_C5 (catalog : List Service) (store : List QuoteRequest) (q : QuoteRequest) :
    (∀ e, calculate_price catalog (toPriceRequest q) = .error e →
      create_quote catalog store q = (.error e, store)) ∧
    (∀ resp, calculate_price catalog (toPriceRequest q) = .ok resp →
      create_quote catalog store q =
        (.ok (store.length, resp.total_price),
          store ++ [{ q with estimated_total := some resp.total_price }])) := by
  constructor <;> intro x hx <;> unfold create_quote <;> rw [hx]

theorem claim_C5_witness :
    calculate_price [tshirtService]
      (toPriceRequest { sampleQuote with service_key := "mug" }) = .error .serviceNotFound ∧
    create_quote [tshirtService] [] { sampleQuote with service_key := "mug" } =
      (.error .serviceNotFound, []) := by
  refine ⟨rfl, ?_⟩
  exact (claim_C5 [tshirtService] [] { sampleQuote with service_key := "mug" }).1
    .serviceNotFound rfl

/-! Concrete double-precision values used in the numerical claim. Each is
verified against the definition of dbl; the fractions are the exact values
of the corresponding binary64 numbers. -/

lemma dbl_one : dbl 1 = 1 := by
  rw [dbl_eq_of 1 0 52 (by norm_num) (by norm_num) (by norm_num) (by norm_num)
    (by norm_num) (by norm_num)]
  norm_num [rne]

lemma dbl_two : dbl 2 = 2 := by
  rw [dbl_eq_of 2 1 51 (by norm_num) (by norm_num) (by norm_num) (by norm_num)
    (by norm_num) (by norm_num)]
  norm_num [rne]

lemma dbl_six : dbl 6 = 6 := by
  rw [dbl_eq_of 6 2 50 (by norm_num) (by norm_num) (by norm_num) (by norm_num)
    (by norm_num) (by norm_num)]
  norm_num [rne]

lemma dbl_hundred : dbl 100 = 100 := by
  rw [dbl_eq_of 100 6 46 (by norm_num) (by norm_num) (by norm_num) (by norm_num)
    (by norm_num) (by norm_num)]
  norm_num [rne]

lemma dbl_p35 : dbl (35/100) = 3152519739159347/9007199254740992 := by
  rw [dbl_eq_of (35/100) (-2) 54 (by norm_num) (by norm_num) (by norm_num) (by norm_num)
    (by norm_num) (by norm_num)]
  norm_num [rne]

lemma dbl_p7 : dbl (3152519739159347/4503599627370496) = 3152519739159347/4503599627370496 := by
  rw [dbl_eq_of (3152519739159347/4503599627370496) (-1) 53 (by norm_num) (by norm_num)
    (by norm_num) (by norm_num) (by norm_num) (by norm_num)]
  norm_num [rne]

lemma dbl_of_p7 : dbl (7/10) = 3152519739159347/4503599627370496 := by
  rw [dbl_eq_of (7/10) (-1) 53 (by norm_num) (by norm_num) (by norm_num) (by norm_num)
    (by norm_num) (by norm_num)]
  norm_num [rne]

lemma dbl_p75 : dbl (3/4) = 3/4 := by
  rw [dbl_eq_of (3/4) (-1) 53 (by norm_num) (by norm_num) (by norm_num) (by norm_num)
    (by norm_num) (by norm_num)]
  norm_num [rne]

lemma dbl_sum67 : dbl (30174117503382323/4503599627370496) =
    7543529375845581/1125899906842624 := by
  rw [dbl_eq_of (30174117503382323/4503599627370496) 2 50 (by norm_num) (by norm_num)
    (by norm_num) (by norm_num) (by norm_num) (by norm_num)]
  norm_num [rne]

lemma dbl_of_67 : dbl (67/10) = 7543529375845581/1125899906842624 := by
  rw [dbl_eq_of (67/10) 2 50 (by norm_num) (by norm_num) (by norm_num) (by norm_num)
    (by norm_num) (by norm_num)]
  norm_num [rne]

lemma dbl_u67 : dbl (7543529375845581/1125899906842624) =
    7543529375845581/1125899906842624 := by
  rw [dbl_eq_of (7543529375845581/1125899906842624) 2 50 (by norm_num) (by norm_num)
    (by norm_num) (by norm_num) (by norm_num) (by norm_num)]
  norm_num [rne]

lemma dbl_disc : dbl (22630588127536743/4503599627370496) =
    2828823515942093/562949953421312 := by
  rw [dbl_eq_of (22630588127536743/4503599627370496) 2 50 (by norm_num) (by norm_num)
    (by norm_num) (by norm_num) (by norm_num) (by norm_num)]
  norm_num [rne]

lemma dbl_of_5025 : dbl (5025/1000) = 2828823515942093/562949953421312 := by
  rw [dbl_eq_of (5025/1000) 2 50 (by norm_num) (by norm_num) (by norm_num) (by norm_num)
    (by norm_num) (by norm_num)]
  norm_num [rne]

lemma dbl_of_503c : dbl (503/100) = 5663276531418399/1125899906842624 := by
  rw [dbl_eq_of (503/100) 2 50 (by norm_num) (by norm_num) (by norm_num) (by norm_num)
    (by norm_num) (by norm_num)]
  norm_num [rne]

lemma dbl_of_502c : dbl (502/100) = 1413004383087493/281474976710656 := by
  rw [dbl_eq_of (502/100) 2 50 (by norm_num) (by norm_num) (by norm_num) (by norm_num)
    (by norm_num) (by norm_num)]
  norm_num [rne]

lemma dbl_tot : dbl (566327653141839900/1125899906842624) = 503 := by
  rw [dbl_eq_of (566327653141839900/1125899906842624) 8 44 (by norm_num) (by norm_num)
    (by norm_num) (by norm_num) (by norm_num) (by norm_num)]
  norm_num [rne]

lemma dbl_503 : dbl 503 = 503 := by
  rw [dbl_eq_of 503 8 44 (by norm_num) (by norm_num) (by norm_num) (by norm_num)
    (by norm_num) (by norm_num)]
  norm_num [rne]

lemma colorAddFP_tshirt : colorAddFP tshirtServiceFP 3 =
    3152519739159347/4503599627370496 := by
  unfold colorAddFP
  rw [show tshirtServiceFP.color_price_per_color = dbl (35/100) from rfl]
  rw [show ((max 0 ((3:ℤ) - 1) : ℤ) : ℚ) = 2 by norm_num]
  rw [dbl_two, dbl_p35]
  unfold fmul
  rw [show (2:ℚ) * (3152519739159347/9007199254740992) = 3152519739159347/4503599627370496
    by norm_num]
  exact dbl_p7

lemma preDiscountUnitFP_tshirt :
    preDiscountUnitFP tshirtServiceFP ⟨"tshirt", 100, 3, "medium"⟩ =
      7543529375845581/1125899906842624 := by
  unfold preDiscountUnitFP
  rw [show (⟨"tshirt", 100, 3, "medium"⟩ : PriceRequest).colors = 3 from rfl,
    show (⟨"tshirt", 100, 3, "medium"⟩ : PriceRequest).print_area = "medium" from rfl,
    show areaMultiplierFP tshirtServiceFP "medium" = dbl 1 from rfl,
    show tshirtServiceFP.base_price = dbl 6 from rfl,
    colorAddFP_tshirt, dbl_one, dbl_six]
  unfold fadd
  rw [show (6:ℚ) + 3152519739159347/4503599627370496 = 30174117503382323/4503599627370496
    by norm_num]
  rw [dbl_sum67]
  unfold fmul
  rw [mul_one, dbl_u67]
  unfold pyRound2
  rw [show rne (100 * (7543529375845581/1125899906842624 : ℚ)) = 670 by norm_num [rne]]
  rw [show (((670:ℤ):ℚ)) / 100 = 67/10 by norm_num]
  exact dbl_of_67

lemma pyRound2_d5025 : pyRound2 (2828823515942093/562949953421312) =
    5663276531418399/1125899906842624 := by
  unfold pyRound2
  rw [show rne (100 * (2828823515942093/562949953421312 : ℚ)) = 503 by norm_num [rne]]
  rw [show (((503:ℤ):ℚ)) / 100 = 503/100 by norm_num]
  exact dbl_of_503c

/-- C6: for the seeded t-shirt service (base 6.0, per-color 0.35, area
multiplier 1.0) and the request quantity=100, colors=3, print_area medium,
the double-precision model yields color_add = 0.7 and a pre-discount unit
price of 6.7 (each as the double of that decimal); the post-discount value
is the double product 6.7 * 0.75, which coincides with the double nearest
5.025 and lies strictly above the exact decimal 5.025, so the second
rounding — round-half-to-even applied to the exact value of the double, the
consistently used rule — produces 5.03, not 5.02; the returned unit price is
the double of 5.03 and total_price = unit_price * 100 = 503 exactly. -/
theorem claim_C6 :
    colorAddFP tshirtServiceFP 3 = dbl (7/10) ∧
    preDiscountUnitFP tshirtServiceFP ⟨"tshirt", 100, 3, "medium"⟩ = dbl (67/10) ∧
    applyVolumeDiscountFP 100 (dbl (67/10)) = dbl (5025/1000) ∧
    dbl (5025/1000) > 5025/1000 ∧
    pyRound2 (dbl (5025/1000)) = dbl (503/100) ∧
    pyRound2 (dbl (5025/1000)) ≠ dbl (502/100) ∧
    fmul (dbl (503/100)) (dbl 100) = 503 ∧
    calculate_price_fp [tshirtServiceFP] ⟨"tshirt", 100, 3, "medium"⟩ =
      .ok { unit_price := dbl (503/100),
            total_price := 503,
            breakdown_base := dbl 6,
            breakdown_colors := 3,
            breakdown_color_add_per_unit := dbl (35/100),
            breakdown_area_multiplier := dbl 1,
            breakdown_volume_discounts := true } := by
  have hdiscfp : applyVolumeDiscountFP 100 (dbl (67/10)) = 2828823515942093/562949953421312 := by
    unfold applyVolumeDiscountFP
    rw [if_pos (by norm_num : (100:ℤ) ≤ 100), dbl_of_67, dbl_p75]
    unfold fmul
    rw [show (7543529375845581/1125899906842624 : ℚ) * (3/4) =
      22630588127536743/4503599627370496 by norm_num]
    exact dbl_disc
  have htotfp : fmul (dbl (503/100)) (dbl 100) = 503 := by
    rw [dbl_of_503c, dbl_hundred]
    unfold fmul
    rw [show (5663276531418399/1125899906842624 : ℚ) * 100 =
      566327653141839900/1125899906842624 by norm_num]
    exact dbl_tot
  refine ⟨?_, ?_, ?_, ?_, ?_, ?_, htotfp, ?_⟩
  · rw [colorAddFP_tshirt, dbl_of_p7]
  · rw [preDiscountUnitFP_tshirt, dbl_of_67]
  · rw [hdiscfp, dbl_of_5025]
  · rw [dbl_of_5025]
    norm_num
  · rw [dbl_of_5025, pyRound2_d5025, dbl_of_503c]
  · rw [dbl_of_5025, pyRound2_d5025, dbl_of_502c]
    norm_num
  · unfold calculate_price_fp
    rw [show (⟨"tshirt", 100, 3, "medium"⟩ : PriceRequest).service_key = "tshirt" from rfl,
      show find_one [tshirtServiceFP] "tshirt" = some tshirtServiceFP from rfl]
    dsimp only
    rw [if_neg (by norm_num [tshirtServiceFP] :
      ¬ (⟨"tshirt", 100, 3, "medium"⟩ : PriceRequest).quantity < tshirtServiceFP.minimum_quantity)]
    rw [preDiscountUnitFP_tshirt, show (7543529375845581/1125899906842624 : ℚ) = dbl (67/10)
      from dbl_of_67.symm, hdiscfp, pyRound2_d5025]
    rw [show ((((100:ℤ)) : ℚ)) = (100:ℚ) by norm_num]
    rw [show (5663276531418399/1125899906842624 : ℚ) = dbl (503/100) from dbl_of_503c.symm]
    rw [htotfp]
    rw [show pyRound2 503 = 503 from by
      unfold pyRound2
      rw [show rne ((100:ℚ) * 503) = 50300 by norm_num [rne]]
      rw [show (((50300:ℤ):ℚ)) / 100 = 503 by norm_num]
      exact dbl_503]
    rfl

/-- C7: for every valid service and every pair of compute-price requests
identical except for colors, the larger colors value gives a pre-discount
unit price at least as big (increasing colors never decreases it). -/
theorem claim_C7 (s : Service) (req : PriceRequest) (c₁ c₂ : ℤ)
    (hs : s.valid) (h : c₁ ≤ c₂) :
    preDiscountUnit s { req with colors := c₁ } ≤
      preDiscountUnit s { req with colors := c₂ } := by
  unfold preDiscountUnit
  dsimp only
  apply round2_mono
  have hmul : 0 ≤ areaMultiplier s req.print_area := by
    unfold areaMultiplier
    have := hs.2.2.1
    split_ifs <;> linarith
  have hca : colorAdd s c₁ ≤ colorAdd s c₂ := by
    unfold colorAdd
    have hmax : ((max 0 (c₁ - 1) : ℤ) : ℚ) ≤ ((max 0 (c₂ - 1) : ℤ) : ℚ) := by
      exact_mod_cast (by omega : (max 0 (c₁ - 1) : ℤ) ≤ max 0 (c₂ - 1))
    exact mul_le_mul_of_nonneg_right hmax hs.2.1
  apply mul_le_mul_of_nonneg_right _ hmul
  linarith

theorem claim_C7_witness :
    tshirtService.valid ∧ (1:ℤ) ≤ 3 ∧
    preDiscountUnit tshirtService ⟨"tshirt", 10, 1, "medium"⟩ ≤
      preDiscountUnit tshirtService ⟨"tshirt", 10, 3, "medium"⟩ := by
  have hv : tshirtService.valid := by
    refine ⟨by norm_num [tshirtService], by norm_num [tshirtService],
      by norm_num [tshirtService], by norm_num [tshirtService]⟩
  exact ⟨hv, by norm_num,
    claim_C7 tshirtService ⟨"tshirt", 10, 1, "medium"⟩ 1 3 hv (by norm_num)⟩

/-- C8: a successful quote creation persists and returns exactly the total
computed by the pricing engine at creation time, and any estimated_total
supplied by the caller is overwritten and has no effect on the outcome. -/
theorem claim_C8 (catalog : List Service) (store : List QuoteRequest) (q : QuoteRequest)
    (id : ℕ) (total : ℚ) (st : List QuoteRequest)
    (h : create_quote catalog store q = (.ok (id, total), st)) :
    (∃ resp, calculate_price catalog (toPriceRequest q) = .ok resp ∧
      total = resp.total_price) ∧
    st = store ++ [{ q with estimated_total := some total }] ∧
    ∀ v, create_quote catalog store { q with estimated_total := v } =
      (.ok (id, total), st) := by
  unfold create_quote at h
  rcases hcp : calculate_price catalog (toPriceRequest q) with e | resp
  · rw [hcp] at h
    simp at h
  · rw [hcp] at h
    dsimp only at h
    simp only [Prod.mk.injEq, Except.ok.injEq] at h
    obtain ⟨⟨hid, htot⟩, hst⟩ := h
    refine ⟨⟨resp, rfl, htot.symm⟩, ?_, ?_⟩
    · rw [← hst, htot]
    · intro v
      unfold create_quote
      rw [show toPriceRequest { q with estimated_total := v } = toPriceRequest q from rfl, hcp]
      dsimp only
      rw [hid, htot]
      rw [show store ++ [({ q with estimated_total := some total } : QuoteRequest)] = st from
        htot ▸ hst]

theorem claim_C8_witness :
    create_quote [tshirtService] [] sampleQuote =
      (.ok (0, 450), [{ sampleQuote with estimated_total := some 450 }]) ∧
    create_quote [tshirtService] [] { sampleQuote with estimated_total := some 99 } =
      (.ok (0, 450), [{ sampleQuote with estimated_total := some 450 }]) := by
  have hq : create_quote [tshirtService] [] sampleQuote =
      (.ok (0, 450), [{ sampleQuote with estimated_total := some 450 }]) := by
    unfold create_quote
    rw [show toPriceRequest sampleQuote = ⟨"tshirt", 100, 1, "medium"⟩ from rfl,
      calc_price_tshirt_100_1]
    rfl
  refine ⟨hq, ?_⟩
  have h := (claim_C8 [tshirtService] [] sampleQuote 0 450
    [{ sampleQuote with estimated_total := some 450 }] hq).2.2 (some 99)
  exact h

/-- C9: quote creation rejects malformed input with a validation error
before any processing, and accepts a request only if the customer name has
at least 2 characters, the email passes the syntax check, quantity lies in
[1, 100000], colors lies in [1, 10], and print_area is small, medium or
large. -/
theorem claim_C9 (emailOk : String → Bool) (catalog : List Service)
    (store : List QuoteRequest) (q : QuoteRequest) :
    ((post_quotes emailOk catalog store q).1 ≠ .error .validation →
      2 ≤ q.customer_name.length ∧ emailOk q.customer_email = true ∧
      1 ≤ q.quantity ∧ q.quantity ≤ 100000 ∧ 1 ≤ q.colors ∧ q.colors ≤ 10 ∧
      (q.print_area = "small" ∨ q.print_area = "medium" ∨ q.print_area = "large")) ∧
    (q.wellFormed emailOk = false →
      post_quotes emailOk catalog store q = (.error .validation, store)) := by
  constructor
  · intro hne
    by_cases hwf : q.wellFormed emailOk
    · unfold QuoteRequest.wellFormed at hwf
      simp only [Bool.and_eq_true, Bool.or_eq_true, decide_eq_true_eq] at hwf
      obtain ⟨⟨⟨⟨⟨⟨⟨hn, he⟩, hq1⟩, hq2⟩, hc1⟩, hc2⟩, hpa⟩, -⟩ := hwf
      exact ⟨hn, he, hq1, hq2, hc1, hc2, by tauto⟩
    · exfalso
      apply hne
      unfold post_quotes
      rw [if_neg hwf]
  · intro hwf
    unfold post_quotes
    rw [hwf]
    rfl

theorem claim_C9_witness :
    ({ sampleQuote with colors := 11 } : QuoteRequest).wellFormed (fun _ => true) = false ∧
    post_quotes (fun _ => true) [tshirtService] [] { sampleQuote with colors := 11 } =
      (.error .validation, []) ∧
    ((post_quotes (fun _ => true) [tshirtService] [] sampleQuote).1 ≠ .error .validation →
      2 ≤ sampleQuote.customer_name.length) := by
  refine ⟨rfl, ?_, ?_⟩
  · exact (claim_C9 (fun _ => true) [tshirtService] [] { sampleQuote with colors := 11 }).2 rfl
  · intro hne
    exact ((claim_C9 (fun _ => true) [tshirtService] [] sampleQuote).1 hne).1

/-- C10: the compute-price endpoint accepts colors values below 1 without
error, and the result for any colors value at most 1 agrees with the result
for colors = 1 in status, unit_price, total_price and every price field of
the breakdown, the color add-on being clamped at zero; only the echoed
colors count in the breakdown differs. -/
theorem claim_C10 (catalog : List Service) (req : PriceRequest) (h : req.colors ≤ 1) :
    calculate_price catalog req =
      (calculate_price catalog { req with colors := 1 }).map
        (fun r => { r with breakdown_colors := req.colors }) := by
  unfold calculate_price
  rw [show ({ req with colors := 1 } : PriceRequest).service_key = req.service_key from rfl]
  rcases hf : find_one catalog req.service_key with _ | s
  · rfl
  · dsimp only
    rw [show preDiscountUnit s req = preDiscountUnit s { req with colors := 1 } from by
      unfold preDiscountUnit colorAdd
      dsimp only
      rw [show (max 0 (req.colors - 1) : ℤ) = max 0 ((1:ℤ) - 1) by omega]]
    by_cases hq : req.quantity < s.minimum_quantity
    · rw [if_pos hq, if_pos hq]
      rfl
    · rw [if_neg hq, if_neg hq]
      rfl

theorem claim_C10_witness :
    (0:ℤ) ≤ 1 ∧
    calculate_price [tshirtService] ⟨"tshirt", 10, 0, "medium"⟩ =
      (calculate_price [tshirtService] ⟨"tshirt", 10, 1, "medium"⟩).map
        (fun r => { r with breakdown_colors := 0 }) := by
  refine ⟨by norm_num, ?_⟩
  exact claim_C10 [tshirtService] ⟨"tshirt", 10, 0, "medium"⟩ (by norm_num)

end PrintShop
